import Mathlib

/-
  Verification of the bodastage ride-sharing client.

  The embedding covers the route resolvers (TripListResolver, TripDetailResolver),
  the route guards (IsRider, IsDriver), the AuthService session handling, the
  SignUpComponent submit flow, and the AppModule route configuration.

  TripListResolver.resolve is embedded from
  src/client/src/app/services/trip-list.resolver.ts; the AppModule route tree is
  embedded from the module declaration shipped alongside
  src/client/src/app/services/trip-detail.resolver.spec.ts. The remaining
  services and components are not present under src/ (only their tests are), so
  they are modelled from the specification, as marked in their doc comments.

  Effects are made explicit: each method returns, besides its value, the list of
  TripService calls it issued and (for object methods) its object state, and an
  rxjs Observable is embedded as its subscription outcome (the values emitted in
  order, then completion or an error).
-/

namespace BodaStage

/-- Trip record fetched from the trip endpoints (spec section 3: id, rider,
driver, pickup and dropoff locations, status). -/
structure Trip where
  id : String
  rider : String
  driver : String
  pickup : String
  dropoff : String
  status : String
deriving Repr, DecidableEq

/-- Outcome of subscribing to an rxjs Observable: the values emitted in order,
followed by completion or by an error of type ε. -/
inductive ObsOutcome (ε α : Type) where
  | completes : List α → ObsOutcome ε α
  | errors : List α → ε → ObsOutcome ε α
deriving Repr, DecidableEq

/-- Shallow embedding of an rxjs Observable as its subscription outcome. -/
structure Observable (ε α : Type) where
  outcome : ObsOutcome ε α
deriving Repr, DecidableEq

/-- Values emitted by an observable before it completes or errors. -/
def Observable.emitted {ε α : Type} (o : Observable ε α) : List α :=
  match o.outcome with
  | ObsOutcome.completes vs => vs
  | ObsOutcome.errors vs _ => vs

/-- True when the observable terminates with an error. -/
def Observable.hasError {ε α : Type} (o : Observable ε α) : Bool :=
  match o.outcome with
  | ObsOutcome.completes _ => false
  | ObsOutcome.errors _ _ => true

/-- Angular ActivatedRouteSnapshot, reduced to the route parameters the
resolvers read (route.params, a key-value map). -/
structure ActivatedRouteSnapshot where
  params : List (String × String)
deriving Repr, DecidableEq

/-- Lookup of one route parameter, as route.params[k] in the source. -/
def ActivatedRouteSnapshot.param (r : ActivatedRouteSnapshot) (k : String) :
    Option String :=
  (r.params.find? (fun p => p.1 = k)).map Prod.snd

/-- Angular RouterStateSnapshot, reduced to the url; the resolvers never read
it (the detail resolver test even passes null for it, embedded as none). -/
structure RouterStateSnapshot where
  url : String
deriving Repr, DecidableEq

/-- One call issued to the TripService, for effect traces. -/
inductive ServiceCall where
  | getTripsCall : ServiceCall
  | getTripCall : String → ServiceCall
deriving Repr, DecidableEq

/-- TripService behaviour (spec section 4.4): getTrips and getTrip(id) each
wrap one HTTP GET and hand back the resulting observable. -/
structure TripService (ε : Type) where
  getTrips : Observable ε (List Trip)
  getTrip : String → Observable ε Trip

/-- Invoking tripService.getTrips(): records the call and hands back the
observable of the underlying HTTP GET. -/
def callGetTrips {ε : Type} (svc : TripService ε) :
    List ServiceCall × Observable ε (List Trip) :=
  ([ServiceCall.getTripsCall], svc.getTrips)

/-- Invoking tripService.getTrip(id): records the call and hands back the
observable of the underlying HTTP GET. -/
def callGetTrip {ε : Type} (svc : TripService ε) (id : String) :
    List ServiceCall × Observable ε Trip :=
  ([ServiceCall.getTripCall id], svc.getTrip id)

/-- TripListResolver object state: the injected tripService is its only field
(src/client/src/app/services/trip-list.resolver.ts line 12). -/
structure TripListResolver (ε : Type) where
  tripService : TripService ε

/-- Embedding of TripListResolver.resolve
(src/client/src/app/services/trip-list.resolver.ts lines 13-15): the body is
the single statement return this.tripService.getTrips(); the route and state
arguments are never read and no field is assigned, so the object state is
returned unchanged. -/
def TripListResolver.resolve {ε : Type} (self : TripListResolver ε)
    (_route : ActivatedRouteSnapshot) (_state : Option RouterStateSnapshot) :
    (List ServiceCall × Observable ε (List Trip)) × TripListResolver ε :=
  (callGetTrips self.tripService, self)

/-- Modelled from the spec: TripDetailResolver object state. The file
src/client/src/app/services/trip-detail.resolver.ts is absent from src/ (only
its test is present); per its test the constructor takes the tripService, the
only field. -/
structure TripDetailResolver (ε : Type) where
  tripService : TripService ε

/-- Modelled from the spec: TripDetailResolver.resolve (the resolver source is
absent from src/, only its test is present). It extracts the id parameter from
the route snapshot, calls TripService.getTrip(id) and returns the observable
result directly (spec section 4.3); a missing parameter stands for the
undefined value a script lookup yields, embedded as the empty string. No field
is assigned, so the object state is returned unchanged. -/
def TripDetailResolver.resolve {ε : Type} (self : TripDetailResolver ε)
    (route : ActivatedRouteSnapshot) (_state : Option RouterStateSnapshot) :
    (List ServiceCall × Observable ε Trip) × TripDetailResolver ε :=
  (callGetTrip self.tripService ((route.param "id").getD ""), self)

/-- Role enum of a user (spec section 3: group is rider or driver). -/
inductive Role where
  | rider : Role
  | driver : Role
deriving Repr, DecidableEq

/-- User record (spec section 3). -/
structure User where
  username : String
  first_name : String
  last_name : String
  group : Role
  photo : String
deriving Repr, DecidableEq

/-- Session Store (spec sections 2 and 3 and glossary): in-memory holder of
the authenticated user and token; empty when logged out. -/
structure SessionStore where
  user : Option User
  token : Option String
deriving Repr, DecidableEq

/-- Result of an HTTP request: a success value, or a failure carrying the
status code (4xx, 5xx, or 0 for a network error) and a message. -/
inductive HttpResult (α : Type) where
  | ok : α → HttpResult α
  | err : Nat → String → HttpResult α
deriving Repr, DecidableEq

/-- Modelled from the spec: IsRider.canActivate
(src/client/src/app/services/is-rider.service.ts is absent from src/). The
guard inspects the Session Store and returns false when it holds no user or a
user whose role is not rider, true otherwise; a false result triggers a router
redirect to the fallback (landing) route and the guard has no other side
effect (spec sections 4.2 and 8). The second component is the list of
redirects issued. -/
def IsRider.canActivate (store : SessionStore) : Bool × List String :=
  match store.user with
  | some u => if u.group = Role.rider then (true, []) else (false, ["/"])
  | none => (false, ["/"])

/-- Modelled from the spec: IsDriver.canActivate
(src/client/src/app/services/is-driver.service.ts is absent from src/), the
driver-role variant of the same guard capability (spec section 4.2). -/
def IsDriver.canActivate (store : SessionStore) : Bool × List String :=
  match store.user with
  | some u => if u.group = Role.driver then (true, []) else (false, ["/"])
  | none => (false, ["/"])

/-- Modelled from the spec: AuthService.signUp
(src/client/src/app/services/auth.service.ts is absent from src/). It issues a
single HTTP POST; on success it stores the returned user and token in the
Session Store and resolves; on failure it propagates the error without
mutating session state (spec section 4.1). The argument is the response of
that single POST; the result pairs the value propagated to the caller with
the Session Store after the call. -/
def AuthService.signUp (response : HttpResult (User × String))
    (store : SessionStore) : HttpResult User × SessionStore :=
  match response with
  | HttpResult.ok (u, tok) => (HttpResult.ok u, SessionStore.mk (some u) (some tok))
  | HttpResult.err c m => (HttpResult.err c m, store)

/-- Modelled from the spec: AuthService.logIn
(src/client/src/app/services/auth.service.ts is absent from src/); same
contract as signUp (spec section 4.1). -/
def AuthService.logIn (response : HttpResult (User × String))
    (store : SessionStore) : HttpResult User × SessionStore :=
  match response with
  | HttpResult.ok (u, tok) => (HttpResult.ok u, SessionStore.mk (some u) (some tok))
  | HttpResult.err c m => (HttpResult.err c m, store)

/-- Sign-up form payload bound by the SignUpComponent, as built in its test
(username, firstName, lastName, password, group, photo file name). -/
structure SignUpPayload where
  username : String
  firstName : String
  lastName : String
  password : String
  group : Role
  photo : String
deriving Repr, DecidableEq

/-- Modelled from the spec: SignUpComponent.onSubmit
(src/client/src/app/components/sign-up/sign-up.component.ts is absent from
src/, only its test is present). It issues one POST to /api/sign_up/ with the
form payload; a successful response triggers router.navigateByUrl to /log-in
(spec sections 4.1 and 8 and the component test); on failure the error
surfaces with no navigation. The first argument is the HTTP backend mapping a
url and payload to a response; the result is the list of urls passed to
router.navigateByUrl, in order. -/
def SignUpComponent.onSubmit (post : String → SignUpPayload → HttpResult User)
    (user : SignUpPayload) : List String :=
  match post "/api/sign_up/" user with
  | HttpResult.ok _ => ["/log-in"]
  | HttpResult.err _ _ => []

/-- Outcome of a navigation driven by a resolver. -/
inductive NavResult where
  | activated : NavResult
  | aborted : NavResult
deriving Repr, DecidableEq

/-- Modelled from the spec: the router half of the resolver contract (the
Angular router is framework code, absent from src/). The router subscribes to
the observable returned by resolve and blocks navigation completion until it
emits-and-completes or errors; on error the navigation is aborted and the
user stays on the prior route (spec sections 4.3 and 7). The result pairs the
navigation outcome with the route the user is on afterwards. -/
def routerResolveNavigation {ε α : Type} (obs : Observable ε α)
    (prior target : String) : NavResult × String :=
  match obs.outcome with
  | ObsOutcome.completes _ => (NavResult.activated, target)
  | ObsOutcome.errors _ _ => (NavResult.aborted, prior)

/-- States of the per-navigation resolver state machine (spec section 4.3). -/
inductive NavState where
  | idle : NavState
  | fetching : NavState
  | resolved : NavState
  | failed : NavState
  | activateComponent : NavState
  | abortNavigation : NavState
deriving Repr, DecidableEq

/-- Modelled from the spec: the per-navigation state machine
Idle -> Fetching -> (Resolved -> Activate component, Failed -> Abort
navigation) (spec section 4.3); the router driving it is framework code,
absent from src/. Given the resolver observable of a navigation, this is the
sequence of states the navigation passes through. -/
def navTrace {ε α : Type} (obs : Observable ε α) : List NavState :=
  NavState.idle :: NavState.fetching ::
    (match obs.outcome with
     | ObsOutcome.completes _ => [NavState.resolved, NavState.activateComponent]
     | ObsOutcome.errors _ _ => [NavState.failed, NavState.abortNavigation])

/-- Running a sequence of navigations through one TripListResolver object,
threading its state and concatenating the TripService call traces
(one resolve call per navigation). -/
def runListNavigations {ε : Type} (self : TripListResolver ε) :
    List (ActivatedRouteSnapshot × Option RouterStateSnapshot) →
    List ServiceCall × TripListResolver ε
  | [] => ([], self)
  | nav :: rest =>
    let r := self.resolve nav.1 nav.2
    let rec' := runListNavigations r.2 rest
    (r.1.1 ++ rec'.1, rec'.2)

/-- Tags naming the components of the AppModule route tree. -/
inductive ComponentTag where
  | signUpC : ComponentTag
  | logInC : ComponentTag
  | landingC : ComponentTag
  | riderC : ComponentTag
  | riderDashboardC : ComponentTag
  | riderRequestC : ComponentTag
  | riderDetailC : ComponentTag
  | driverC : ComponentTag
  | driverDashboardC : ComponentTag
  | driverDetailC : ComponentTag
deriving Repr, DecidableEq

/-- Tags naming the two resolvers. -/
inductive ResolverTag where
  | tripListTag : ResolverTag
  | tripDetailTag : ResolverTag
deriving Repr, DecidableEq

/-- Path pattern of one route entry: a literal segment, a parameter written
with a leading colon in the source (so paramPath "id" embeds the path :id),
or the empty path. -/
inductive RoutePath where
  | literalPath : String → RoutePath
  | paramPath : String → RoutePath
  | emptyPath : RoutePath
deriving Repr, DecidableEq

/-- One entry of a route configuration list: path, component, and the
resolve map (data key to resolver). -/
structure RouteDef where
  path : RoutePath
  component : ComponentTag
  resolve : List (String × ResolverTag)
deriving Repr, DecidableEq

/-- Children of the rider route, in declaration order, embedded from the
AppModule RouterModule.forRoot configuration (shipped alongside
src/client/src/app/services/trip-detail.resolver.spec.ts):
request, then :id with resolve trip: TripDetailResolver, then the empty path
with resolve trips: TripListResolver. -/
def riderChildren : List RouteDef :=
  [ RouteDef.mk (RoutePath.literalPath "request") ComponentTag.riderRequestC [],
    RouteDef.mk (RoutePath.paramPath "id") ComponentTag.riderDetailC
      [("trip", ResolverTag.tripDetailTag)],
    RouteDef.mk RoutePath.emptyPath ComponentTag.riderDashboardC
      [("trips", ResolverTag.tripListTag)] ]

/-- Modelled from the spec: Angular child-route matching on one url segment
(the router is framework code, absent from src/). A parameter path matches
any segment, the empty path matches only the empty remainder (so never a
concrete segment), and a literal path matches exactly itself; the first
matching entry in declaration order wins. -/
def matchChild (seg : String) (r : RouteDef) : Bool :=
  match r.path with
  | RoutePath.literalPath s => s = seg
  | RoutePath.paramPath _ => true
  | RoutePath.emptyPath => false

/-- First child route matching a segment, in declaration order. -/
def firstMatchedChild (children : List RouteDef) (seg : String) :
    Option RouteDef :=
  children.find? (matchChild seg)

/-- Concrete trip used by the witness theorems. -/
def sampleTrip : Trip :=
  Trip.mk "42" "alice" "bob" "pickupA" "dropoffB" "COMPLETED"

/-- Concrete trip service whose calls succeed, for witnesses. -/
def sampleService : TripService String :=
  TripService.mk
    (Observable.mk (ObsOutcome.completes [[sampleTrip]]))
    (fun _ => Observable.mk (ObsOutcome.completes [sampleTrip]))

/-- Concrete trip service whose calls error, for witnesses. -/
def failingService : TripService String :=
  TripService.mk
    (Observable.mk (ObsOutcome.errors [] "http 500"))
    (fun _ => Observable.mk (ObsOutcome.errors [] "http 404"))

/-- Concrete route snapshot carrying the id parameter, for witnesses. -/
def sampleRoute : ActivatedRouteSnapshot :=
  ActivatedRouteSnapshot.mk [("id", "42")]

/-- Detail resolver over the succeeding service, for witnesses. -/
def sampleDetailResolver : TripDetailResolver String :=
  TripDetailResolver.mk sampleService

/-- List resolver over the erroring service, for witnesses. -/
def failingListResolver : TripListResolver String :=
  TripListResolver.mk failingService

/-- Detail resolver over the erroring service, for witnesses. -/
def failingDetailResolver : TripDetailResolver String :=
  TripDetailResolver.mk failingService

/-- Concrete user record, for witnesses. -/
def sampleUser : User :=
  User.mk "alice" "Alice" "Ann" Role.rider "photo.jpg"

/-- Concrete sign-up payload, for witnesses (spec section 8 scenario). -/
def samplePayload : SignUpPayload :=
  SignUpPayload.mk "alice" "Alice" "Ann" "pAssw0rd!" Role.rider "photo.jpg"

/-- Concrete HTTP backend that accepts any sign-up, for witnesses. -/
def samplePost : String → SignUpPayload → HttpResult User :=
  fun _ _ => HttpResult.ok sampleUser

/-- C1: for every trip id, TripDetailResolver.resolve extracts the id
parameter from the route snapshot, calls TripService.getTrip(id) exactly
once, and its observable is exactly the one getTrip(id) returned, so it emits
the same Trip objects unchanged. -/
theorem tripDetailResolver_resolve_identity {ε : Type}
    (self : TripDetailResolver ε) (route : ActivatedRouteSnapshot)
    (state : Option RouterStateSnapshot) (id : String)
    (h : route.param "id" = some id) :
    (self.resolve route state).1.1 = [ServiceCall.getTripCall id] ∧
    (self.resolve route state).1.2 = self.tripService.getTrip id ∧
    (self.resolve route state).1.2.emitted
      = (self.tripService.getTrip id).emitted := by
  simp [TripDetailResolver.resolve, callGetTrip, h]

/-- C1 witness at the concrete route with id 42. -/
theorem tripDetailResolver_resolve_identity_witness :
    sampleRoute.param "id" = some "42" ∧
    ((sampleDetailResolver.resolve sampleRoute none).1.1
        = [ServiceCall.getTripCall "42"] ∧
     (sampleDetailResolver.resolve sampleRoute none).1.2
        = sampleDetailResolver.tripService.getTrip "42" ∧
     (sampleDetailResolver.resolve sampleRoute none).1.2.emitted
        = (sampleDetailResolver.tripService.getTrip "42").emitted) :=
  ⟨by decide,
   tripDetailResolver_resolve_identity sampleDetailResolver sampleRoute none
     "42" (by decide)⟩

/-- C2: for every valid sign-up payload, when onSubmit is invoked and the
POST to /api/sign_up/ succeeds, the router is told to navigate to /log-in
exactly once (the navigation list is exactly the singleton /log-in). -/
theorem signUpComponent_onSubmit_navigates_once
    (post : String → SignUpPayload → HttpResult User)
    (payload : SignUpPayload) (u : User)
    (h : post "/api/sign_up/" payload = HttpResult.ok u) :
    SignUpComponent.onSubmit post payload = ["/log-in"] := by
  simp [SignUpComponent.onSubmit, h]

/-- C2 witness at the concrete payload and accepting backend. -/
theorem signUpComponent_onSubmit_navigates_once_witness :
    samplePost "/api/sign_up/" samplePayload = HttpResult.ok sampleUser ∧
    SignUpComponent.onSubmit samplePost samplePayload = ["/log-in"] :=
  ⟨rfl,
   signUpComponent_onSubmit_navigates_once samplePost samplePayload sampleUser
     rfl⟩

/-- C3: IsRider allows exactly when the Session Store holds a user with the
rider role, IsDriver exactly when it holds a user with the driver role; a
false result issues exactly the redirect to the fallback route and a true
result issues nothing, so the guards have no other side effect. -/
theorem guards_role_check (store : SessionStore) :
    ((IsRider.canActivate store).1 = true ↔
      ∃ u, store.user = some u ∧ u.group = Role.rider) ∧
    (IsRider.canActivate store).2 =
      (if (IsRider.canActivate store).1 then [] else ["/"]) ∧
    ((IsDriver.canActivate store).1 = true ↔
      ∃ u, store.user = some u ∧ u.group = Role.driver) ∧
    (IsDriver.canActivate store).2 =
      (if (IsDriver.canActivate store).1 then [] else ["/"]) := by
  obtain ⟨user, token⟩ := store
  cases user with
  | none => simp [IsRider.canActivate, IsDriver.canActivate]
  | some u =>
    cases hg : u.group <;>
      simp [IsRider.canActivate, IsDriver.canActivate, hg]

/-- C4: when the HTTP POST behind signUp or logIn fails, the error is
propagated to the caller unchanged and the Session Store is left exactly as
it was. -/
theorem authService_error_leaves_session_unchanged (c : Nat) (m : String)
    (store : SessionStore) :
    AuthService.signUp (HttpResult.err c m) store
      = (HttpResult.err c m, store) ∧
    AuthService.logIn (HttpResult.err c m) store
      = (HttpResult.err c m, store) :=
  ⟨rfl, rfl⟩

/-- C5: if the HTTP call behind a resolver errors, the observable returned by
resolve errors with the very same emissions and error (no local recovery,
retry, or substitution), and the router aborts the navigation so the user
stays on the prior route; stated for both resolvers. -/
theorem resolver_error_propagates_and_aborts {ε : Type}
    (listR : TripListResolver ε) (detailR : TripDetailResolver ε)
    (route : ActivatedRouteSnapshot) (state : Option RouterStateSnapshot)
    (prior target : String) (id : String)
    (vs : List (List Trip)) (e : ε) (ws : List Trip) (e2 : ε)
    (hid : route.param "id" = some id)
    (hl : listR.tripService.getTrips.outcome = ObsOutcome.errors vs e)
    (hd : (detailR.tripService.getTrip id).outcome = ObsOutcome.errors ws e2) :
    ((listR.resolve route state).1.2.outcome = ObsOutcome.errors vs e ∧
     routerResolveNavigation (listR.resolve route state).1.2 prior target
       = (NavResult.aborted, prior)) ∧
    ((detailR.resolve route state).1.2.outcome = ObsOutcome.errors ws e2 ∧
     routerResolveNavigation (detailR.resolve route state).1.2 prior target
       = (NavResult.aborted, prior)) := by
  simp [TripListResolver.resolve, TripDetailResolver.resolve, callGetTrips,
    callGetTrip, routerResolveNavigation, hid, hl, hd]

/-- C5 witness at the concrete erroring service and route with id 42. -/
theorem resolver_error_propagates_and_aborts_witness :
    (sampleRoute.param "id" = some "42" ∧
     failingListResolver.tripService.getTrips.outcome
       = ObsOutcome.errors [] "http 500" ∧
     (failingDetailResolver.tripService.getTrip "42").outcome
       = ObsOutcome.errors [] "http 404") ∧
    (((failingListResolver.resolve sampleRoute none).1.2.outcome
        = ObsOutcome.errors [] "http 500" ∧
      routerResolveNavigation (failingListResolver.resolve sampleRoute none).1.2
        "/" "/rider" = (NavResult.aborted, "/")) ∧
     ((failingDetailResolver.resolve sampleRoute none).1.2.outcome
        = ObsOutcome.errors [] "http 404" ∧
      routerResolveNavigation
        (failingDetailResolver.resolve sampleRoute none).1.2
        "/" "/rider/42" = (NavResult.aborted, "/"))) :=
  ⟨⟨by decide, by decide, by decide⟩,
   resolver_error_propagates_and_aborts failingListResolver
     failingDetailResolver sampleRoute none "/" "/rider/42" "42"
     [] "http 500" [] "http 404" (by decide) (by decide) (by decide)⟩

/-- C6: for every route snapshot and router state, TripListResolver.resolve
issues exactly one TripService.getTrips() call and returns the resulting
observable directly, so the emitted Trip array is untransformed. -/
theorem tripListResolver_resolve_direct {ε : Type} (self : TripListResolver ε)
    (route : ActivatedRouteSnapshot) (state : Option RouterStateSnapshot) :
    (self.resolve route state).1.1 = [ServiceCall.getTripsCall] ∧
    (self.resolve route state).1.2 = self.tripService.getTrips ∧
    (self.resolve route state).1.2.emitted
      = self.tripService.getTrips.emitted :=
  ⟨rfl, rfl, rfl⟩

/-- Shape of the per-navigation trace: it is exactly the success path
Idle, Fetching, Resolved, Activate or the failure path Idle, Fetching,
Failed, Abort, and the component is activated exactly when the resolver
observable completed. -/
theorem navTrace_shape {ε α : Type} (obs : Observable ε α) :
    (navTrace obs = [NavState.idle, NavState.fetching, NavState.resolved,
        NavState.activateComponent] ∨
     navTrace obs = [NavState.idle, NavState.fetching, NavState.failed,
        NavState.abortNavigation]) ∧
    (NavState.activateComponent ∈ navTrace obs ↔
      ∃ vs, obs.outcome = ObsOutcome.completes vs) := by
  obtain ⟨o⟩ := obs
  cases o <;> simp [navTrace]

/-- C7: each navigation through a resolver follows the state machine Idle ->
Fetching -> (Resolved -> Activate component, Failed -> Abort navigation), and
the component is activated exactly when the resolver observable obtained its
data and completed (otherwise the failure leads to an abort); stated for the
observables of both resolvers. -/
theorem navigation_state_machine {ε : Type} (listR : TripListResolver ε)
    (detailR : TripDetailResolver ε) (route : ActivatedRouteSnapshot)
    (state : Option RouterStateSnapshot) :
    ((navTrace (listR.resolve route state).1.2
        = [NavState.idle, NavState.fetching, NavState.resolved,
           NavState.activateComponent] ∨
      navTrace (listR.resolve route state).1.2
        = [NavState.idle, NavState.fetching, NavState.failed,
           NavState.abortNavigation]) ∧
     (NavState.activateComponent ∈ navTrace (listR.resolve route state).1.2 ↔
       ∃ vs, (listR.resolve route state).1.2.outcome
               = ObsOutcome.completes vs)) ∧
    ((navTrace (detailR.resolve route state).1.2
        = [NavState.idle, NavState.fetching, NavState.resolved,
           NavState.activateComponent] ∨
      navTrace (detailR.resolve route state).1.2
        = [NavState.idle, NavState.fetching, NavState.failed,
           NavState.abortNavigation]) ∧
     (NavState.activateComponent ∈ navTrace (detailR.resolve route state).1.2 ↔
       ∃ vs, (detailR.resolve route state).1.2.outcome
               = ObsOutcome.completes vs)) :=
  ⟨navTrace_shape ((listR.resolve route state).1.2),
   navTrace_shape ((detailR.resolve route state).1.2)⟩

/-- Running n navigations through one list resolver issues exactly n
getTrips calls and leaves the resolver object as it started. -/
theorem runListNavigations_eq {ε : Type} (self : TripListResolver ε)
    (navs : List (ActivatedRouteSnapshot × Option RouterStateSnapshot)) :
    runListNavigations self navs
      = (List.replicate navs.length ServiceCall.getTripsCall, self) := by
  induction navs with
  | nil => rfl
  | cons nav rest ih =>
    simp [runListNavigations, TripListResolver.resolve, callGetTrips, ih,
      List.replicate]

/-- C8: the resolvers keep no state between invocations: over any sequence of
navigations each call to TripListResolver.resolve issues one fresh getTrips
call (n navigations, n calls, no caching) and the resolver object is
unchanged, and a call to TripDetailResolver.resolve issues one fresh getTrip
call and mutates no field. -/
theorem resolvers_stateless_refetch {ε : Type} (self : TripListResolver ε)
    (navs : List (ActivatedRouteSnapshot × Option RouterStateSnapshot))
    (detailR : TripDetailResolver ε) (route : ActivatedRouteSnapshot)
    (state : Option RouterStateSnapshot) :
    (runListNavigations self navs).1
      = List.replicate navs.length ServiceCall.getTripsCall ∧
    (runListNavigations self navs).2 = self ∧
    (self.resolve route state).2 = self ∧
    (detailR.resolve route state).2 = detailR ∧
    (detailR.resolve route state).1.1
      = [ServiceCall.getTripCall ((route.param "id").getD "")] := by
  refine ⟨?_, ?_, rfl, rfl, rfl⟩ <;> simp [runListNavigations_eq]

/-- C9: TripListResolver.resolve is independent of its route and state
arguments: any two invocations on the same resolver object coincide entirely,
so the emitted trip lists are identical. -/
theorem tripListResolver_input_independent {ε : Type}
    (self : TripListResolver ε) (r1 r2 : ActivatedRouteSnapshot)
    (s1 s2 : Option RouterStateSnapshot) :
    self.resolve r1 s1 = self.resolve r2 s2 ∧
    (self.resolve r1 s1).1.2.emitted = (self.resolve r2 s2).1.2.emitted :=
  ⟨rfl, rfl⟩

/-- C10: because the child route request precedes the parameterised child :id
under the rider path, the segment request matches the RiderRequest entry of
the configuration, whose resolve map is empty: RiderRequestComponent is
activated, RiderDetailComponent is not, and TripDetailResolver is never
invoked for that path. -/
theorem rider_request_route_order :
    firstMatchedChild riderChildren "request"
      = some (RouteDef.mk (RoutePath.literalPath "request")
          ComponentTag.riderRequestC []) ∧
    (firstMatchedChild riderChildren "request").map RouteDef.component
      = some ComponentTag.riderRequestC ∧
    (firstMatchedChild riderChildren "request").map RouteDef.resolve
      = some [] := by
  decide

end BodaStage
